import Mathlib

/-!
Verification of the claude-gemini-compatibility repository.

The source under scrutiny is `integration-tests/claude-compatibility.test.js`
(functions `generateClaudeStyleOutput` and `generateGeminiTreeOutput`) and
`scripts/find-claude-md-examples.cjs` (function `analyzeClaudeFile`).
JavaScript strings are modelled as Lean `String`s; the string operations the
source uses (`split('\n')`, `join(sep)`, `trim()`, the regex `/@([^\s]+)/`,
`path.dirname`, `path.resolve`) are embedded explicitly below, working on the
underlying character lists.  `process.cwd()`, which Node's `path.resolve`
consults for relative paths, is passed as an explicit `cwd` argument.
JavaScript objects used as string-keyed maps are modelled as association
lists; reading an absent key crashes the JS (`undefined.trim()`), which the
embedding models by returning `none`.
-/

/-- Whitespace test matching the characters JavaScript's `\s` and `trim()`
recognize on the ASCII inputs this repository processes. -/
def isWsChar (c : Char) : Bool :=
  c = ' ' || c = '\t' || c = '\n' || c = '\r'

/-- Character-level model of JavaScript `String.prototype.split('\n')`:
`""` yields `[""]`, a trailing separator yields a trailing empty piece. -/
def splitNl : List Char → List (List Char)
  | [] => [[]]
  | c :: rest =>
    if c = '\n' then [] :: splitNl rest
    else
      match splitNl rest with
      | [] => [[c]]
      | h :: t => (c :: h) :: t

/-- Character-level model of JavaScript `Array.prototype.join(sep)`. -/
def joinSep (sep : List Char) : List (List Char) → List Char
  | [] => []
  | [l] => l
  | l :: l' :: ls => l ++ sep ++ joinSep sep (l' :: ls)

/-- JavaScript `content.split('\n')` on `String`s. -/
def jsSplitLines (s : String) : List String :=
  (splitNl s.data).map (fun l => String.mk l)

/-- JavaScript `array.join(sep)` on `String`s. -/
def jsJoin (sep : String) (ls : List String) : String :=
  String.mk (joinSep sep.data (ls.map String.data))

/-- JavaScript `String.prototype.trim()`: drop leading and trailing
whitespace. -/
def jsTrim (s : String) : String :=
  String.mk (((s.data.dropWhile isWsChar).reverse.dropWhile isWsChar).reverse)

/-- JavaScript object read `m[k]` on a string-keyed map modelled as an
association list (object literals in the source have distinct keys). -/
def lookupJs : List (String × String) → String → Option String
  | [], _ => none
  | (k, v) :: rest, key => if k = key then some v else lookupJs rest key

/-- JavaScript truthiness test `if (m[k])`: an absent key and the empty
string are both falsy. -/
def truthyLookup (m : List (String × String)) (k : String) : Option String :=
  match lookupJs m k with
  | some v => if v = "" then none else some v
  | none => none

/-- The longest run of non-whitespace characters, as the greedy `[^\s]+`. -/
def takeNonWs (l : List Char) : List Char :=
  l.takeWhile (fun c => !(isWsChar c))

/-- Model of the regex search `line.match(/@([^\s]+)/)`: scanning left to
right, the first `@` that is immediately followed by at least one
non-whitespace character matches, and the capture is the maximal
non-whitespace run after that `@`.  An `@` followed by whitespace or the end
of the line does not match and scanning continues after it. -/
def firstAtMatchData : List Char → Option (List Char)
  | [] => none
  | c :: rest =>
    if c = '@' then
      let cap := takeNonWs rest
      if cap = [] then firstAtMatchData rest else some cap
    else firstAtMatchData rest

/-- The captured group of `line.match(/@([^\s]+)/)`, when the regex matches. -/
def firstAtMatch (line : String) : Option String :=
  (firstAtMatchData line.data).map (fun l => String.mk l)

/-- Splitting a character list on a separator character (used to model the
path manipulation in Node's `path` module). -/
def splitCh (sep : Char) : List Char → List (List Char)
  | [] => [[]]
  | c :: rest =>
    if c = sep then [] :: splitCh sep rest
    else
      match splitCh sep rest with
      | [] => [[c]]
      | h :: t => (c :: h) :: t

/-- Model of Node `path.dirname` for the slash-separated paths this
repository passes it (no trailing slashes). -/
def jsDirname (p : String) : String :=
  let parts := splitCh '/' p.data
  if parts.length ≤ 1 then "."
  else if parts.dropLast = [[]] then "/"
  else String.mk (joinSep ['/'] parts.dropLast)

/-- Segment normalization of an absolute path: empty and `.` segments are
dropped, `..` pops the previous segment (and is dropped at the root). -/
def normSegs (segs : List (List Char)) : List (List Char) :=
  segs.foldl
    (fun acc s =>
      if s = [] || s = ['.'] then acc
      else if s = ['.', '.'] then acc.dropLast
      else acc ++ [s])
    []

/-- Normalize an absolute slash-separated path. -/
def normalizeAbs (p : String) : String :=
  String.mk ('/' :: joinSep ['/'] (normSegs (splitCh '/' p.data)))

/-- True when the string starts with `/`. -/
def startsSlash (s : String) : Bool :=
  match s.data with
  | '/' :: _ => true
  | _ => false

/-- Model of Node `path.resolve(dir, p)`: if `p` is absolute it is
normalized on its own; otherwise it is joined to `dir`, and when `dir` is
itself relative the ambient working directory `cwd` (Node's
`process.cwd()`, always absolute) is prepended before normalizing. -/
def pathResolve (cwd dir p : String) : String :=
  if startsSlash p then normalizeAbs p
  else if startsSlash dir then normalizeAbs (dir ++ "/" ++ p)
  else normalizeAbs (cwd ++ "/" ++ dir ++ "/" ++ p)

/-- `f a₁ ++ f a₂ ++ ...`: the per-line results pushed one after another
into `processedLines` by the source's inner loop. -/
def concatMap (f : α → List β) : List α → List β
  | [] => []
  | a :: as => f a ++ concatMap f as

/-- Substring test used to state facts about rendered output. -/
def prefixOfCl : List Char → List Char → Bool
  | [], _ => true
  | _ :: _, [] => false
  | a :: as, b :: bs => a = b && prefixOfCl as bs

/-- Whether `sub` occurs contiguously inside `l`. -/
def infixOfCl (sub : List Char) : List Char → Bool
  | [] => prefixOfCl sub []
  | c :: rest => prefixOfCl sub (c :: rest) || infixOfCl sub rest

/-- Whether the string `sub` occurs as a substring of `s`. -/
def containsSub (sub s : String) : Bool :=
  infixOfCl sub.data s.data

/-! The functions of `integration-tests/claude-compatibility.test.js`. -/

/-- The opening boundary marker pushed by `generateClaudeStyleOutput`. -/
def claudeFileBegin (fp : String) : String :=
  "--- File: " ++ fp ++ " ---"

/-- The closing boundary marker pushed by `generateClaudeStyleOutput`. -/
def claudeFileEnd (fp : String) : String :=
  "--- End of File: " ++ fp ++ " ---"

/-- The loop of `generateClaudeStyleOutput` viewed as the list of
`(filePath, files[filePath].trim())` blocks it pushes, one per entry of
`processedFiles` in order; `none` models the TypeError the JS raises when a
processed path is missing from `files`. -/
def claudeBlocks (files : List (String × String)) : List String → Option (List (String × String))
  | [] => some []
  | fp :: rest =>
    match lookupJs files fp with
    | none => none
    | some c => (claudeBlocks files rest).map (fun bs => (fp, jsTrim c) :: bs)

/-- The `output` array of `generateClaudeStyleOutput` joined with `'\n\n'`:
each block contributes its begin marker, trimmed content, and end marker. -/
def renderClaudeBlocks (bs : List (String × String)) : String :=
  jsJoin "\n\n" (concatMap (fun b => [claudeFileBegin b.1, b.2, claudeFileEnd b.1]) bs)

/-- `generateClaudeStyleOutput(files, processedFiles)` from
`claude-compatibility.test.js` lines 100-111. -/
def generateClaudeStyleOutput (files : List (String × String)) (pf : List String) : Option String :=
  (claudeBlocks files pf).map renderClaudeBlocks

/-- The begin marker pushed for a successful import in
`generateGeminiTreeOutput`. -/
def geminiImportBegin (ip : String) : String :=
  "<!-- Imported from: " ++ ip ++ " -->"

/-- The end marker pushed for a successful import. -/
def geminiImportEnd (ip : String) : String :=
  "<!-- End of import from: " ++ ip ++ " -->"

/-- The marker pushed when `importMap[fullImportPath]` is falsy. -/
def geminiImportFail (ip : String) : String :=
  "<!-- Import failed: " ++ ip ++ " -->"

/-- The body of the `for (const line of lines)` loop of
`generateGeminiTreeOutput`: on the first `@([^\s]+)` match the whole line is
replaced by the three-element import block (or the one-element failure
marker); otherwise the line is kept as is. -/
def geminiProcessLine (cwd : String) (im : List (String × String)) (fp line : String) : List String :=
  match firstAtMatch line with
  | some ip =>
    match truthyLookup im (pathResolve cwd (jsDirname fp) ip) with
    | some c => [geminiImportBegin ip, jsTrim c, geminiImportEnd ip]
    | none => [geminiImportFail ip]
  | none => [line]

/-- One file's contribution to the output of `generateGeminiTreeOutput`:
`processedLines.join('\n')` after processing every line of the content. -/
def geminiProcessFile (cwd : String) (im : List (String × String)) (fp content : String) : String :=
  jsJoin "\n" (concatMap (geminiProcessLine cwd im fp) (jsSplitLines content))

/-- The outer loop of `generateGeminiTreeOutput`: one processed chunk per
entry of `processedFiles`; `none` models the TypeError on a missing file. -/
def geminiChunks (cwd : String) (files im : List (String × String)) : List String → Option (List String)
  | [] => some []
  | fp :: rest =>
    match lookupJs files fp with
    | none => none
    | some c =>
      (geminiChunks cwd files im rest).map (fun out => geminiProcessFile cwd im fp c :: out)

/-- `generateGeminiTreeOutput(files, processedFiles, importMap)` from
`claude-compatibility.test.js` lines 114-144, with `cwd` standing for the
`process.cwd()` Node's `path.resolve` reads. -/
def generateGeminiTreeOutput (cwd : String) (files : List (String × String)) (pf : List String) (im : List (String × String)) : Option String :=
  (geminiChunks cwd files im pf).map (jsJoin "\n\n")

/-! The scanner of `scripts/find-claude-md-examples.cjs`. -/

/-- The loop of `analyzeClaudeFile` (lines 96-106): for the line at 0-based
index `i`, a first `@([^\s]+)` match records `(i + 1, capture, line.trim())`. -/
def analyzeLines : Nat → List String → List (Nat × String × String)
  | _, [] => []
  | i, line :: rest =>
    match firstAtMatch line with
    | some ip => (i + 1, ip, jsTrim line) :: analyzeLines (i + 1) rest
    | none => analyzeLines (i + 1) rest

/-- The result object of `analyzeClaudeFile`. -/
structure ClaudeFileAnalysis where
  repo : String
  filePath : String
  totalLines : Nat
  atImports : List (Nat × String × String)
  hasImports : Bool
  importCount : Nat
  deriving DecidableEq, Repr

/-- `analyzeClaudeFile(content, repo, filePath)` from
`find-claude-md-examples.cjs` lines 92-116. -/
def analyzeClaudeFile (content repo filePath : String) : ClaudeFileAnalysis :=
  let lines := jsSplitLines content
  let ai := analyzeLines 0 lines
  { repo := repo
    filePath := filePath
    totalLines := lines.length
    atImports := ai
    hasImports := decide (0 < ai.length)
    importCount := ai.length }

/-- The capture of the per-line scan for each line that has one: the
directive paths a list of lines yields, in line order. -/
def recognizedPaths (ls : List String) : List String :=
  ls.filterMap firstAtMatch

/-- Modelled from the spec: the inclusion-graph builder's depth-first
traversal (spec section 4.3) producing the first-encounter order of canonical
paths.  The renderers in the source receive this list as `processedFiles`,
but the traversal that produces it is not part of the source tree; `g` maps
a canonical path to its directive targets in document order, and the fuel
argument bounds the recursion depth. -/
def dfsEncounter (g : String → List String) : Nat → List String → String → List String
  | 0, vis, _ => vis
  | n + 1, vis, u =>
    if u ∈ vis then vis
    else (g u).foldl (dfsEncounter g n) (vis ++ [u])

/-! Concrete inputs used by counterexamples and witnesses, shaped after the
`TEST_FILES` fixtures of `claude-compatibility.test.js`. -/

/-- A root whose only directive line also carries surrounding literal text. -/
def c1Files : List (String × String) := [("main.md", "pre @./h.md post")]

/-- An import map (keyed by resolved absolute paths for working directory
`/r`) in which the imported document `h.md` itself contains a directive to
`t.md`, and `t.md` is also resolvable. -/
def c1Im : List (String × String) := [("/r/h.md", "A\n@./t.md\nB"), ("/r/t.md", "T")]

/-- The `circular-a.md` fixture. -/
def circAContent : String := "# Circular A\n\n@./circular-b.md\n\nContent A\n"

/-- The `circular-b.md` fixture. -/
def circBContent : String := "# Circular B\n\n@./circular-a.md\n\nContent B\n"

/-- The two mutually referencing documents of the circular-import fixture. -/
def circFiles : List (String × String) :=
  [("circular-a.md", circAContent), ("circular-b.md", circBContent)]

/-- The import map for the circular fixture, keyed by the paths
`path.resolve` produces for working directory `/t`. -/
def circIm : List (String × String) :=
  [("/t/circular-a.md", circAContent), ("/t/circular-b.md", circBContent)]

/-- The `duplicate-test.md` fixture: one document referencing
`shared/config.md` twice. -/
def dupMainContent : String :=
  "# Duplicate Test\n\n@./shared/config.md\n\nContent here.\n\n@./shared/config.md\n\nMore content.\n"

/-- The `shared/config.md` fixture. -/
def dupCfgContent : String := "# Configuration\n\nThis is the configuration content.\n"

/-- Files map for the duplicate-import scenario. -/
def dupFiles : List (String × String) :=
  [("duplicate-test.md", dupMainContent), ("shared/config.md", dupCfgContent)]

/-- The inclusion graph of the duplicate-import scenario: the root references
the same canonical path twice. -/
def dupGraph : String → List String := fun s =>
  if s = "duplicate-test.md" then ["shared/config.md", "shared/config.md"] else []

/-- The inclusion graph of the nested scenario of spec section 8: `main`
references `header` then `footer`, and `header` references `title`. -/
def nestedGraph : String → List String := fun s =>
  if s = "main.md" then ["components/header.md", "components/footer.md"]
  else if s = "components/header.md" then ["shared/title.md"]
  else []

/-- Files map for the nested scenario. -/
def nestedFiles : List (String × String) :=
  [("main.md", "# Main\n\n@./components/header.md\n\n@./components/footer.md\n"),
   ("components/header.md", "# Header\n\n@./shared/title.md\n"),
   ("components/footer.md", "# Footer\n"),
   ("shared/title.md", "# Title\n")]

/-! Helper lemmas shared by the claim theorems. -/

theorem splitNl_ne_nil (d : List Char) : splitNl d ≠ [] := by
  induction d with
  | nil => simp [splitNl]
  | cons c rest ih =>
    simp only [splitNl]
    split
    · simp
    · match h : splitNl rest with
      | [] => exact absurd h ih
      | h' :: t => simp

theorem joinSep_splitNl (d : List Char) : joinSep ['\n'] (splitNl d) = d := by
  induction d with
  | nil => rfl
  | cons c rest ih =>
    simp only [splitNl]
    split
    · rename_i hc
      subst hc
      match h : splitNl rest with
      | [] => exact absurd h (splitNl_ne_nil rest)
      | h' :: t =>
        rw [h] at ih
        simpa [joinSep] using ih
    · match h : splitNl rest with
      | [] => exact absurd h (splitNl_ne_nil rest)
      | h' :: t =>
        rw [h] at ih
        cases t with
        | nil => simpa [joinSep] using ih
        | cons t0 ts => simpa [joinSep] using ih

theorem jsJoin_jsSplitLines (s : String) : jsJoin "\n" (jsSplitLines s) = s := by
  show String.mk (joinSep "\n".data ((List.map (fun l => String.mk l) (splitNl s.data)).map String.data)) = s
  rw [List.map_map]
  have h1 : (String.data ∘ fun l => String.mk l) = id := by
    funext l
    rfl
  rw [h1, List.map_id]
  show String.mk (joinSep ['\n'] (splitNl s.data)) = s
  rw [joinSep_splitNl]

theorem concatMap_append (f : α → List β) (l1 l2 : List α) :
    concatMap f (l1 ++ l2) = concatMap f l1 ++ concatMap f l2 := by
  induction l1 with
  | nil => rfl
  | cons a as ih => simp [concatMap, ih]

theorem concatMap_id_of (f : α → List α) (ls : List α) (h : ∀ a ∈ ls, f a = [a]) :
    concatMap f ls = ls := by
  induction ls with
  | nil => rfl
  | cons a as ih =>
    simp only [concatMap]
    rw [h a (by simp), ih (fun a ha => h a (by simp [ha]))]
    rfl

theorem claudeBlocks_map_fst (files : List (String × String)) :
    ∀ (pf : List String) (bs : List (String × String)),
      claudeBlocks files pf = some bs → bs.map Prod.fst = pf := by
  intro pf
  induction pf with
  | nil =>
    intro bs h
    simp [claudeBlocks] at h
    simp [← h]
  | cons fp rest ih =>
    intro bs h
    simp only [claudeBlocks] at h
    match hl : lookupJs files fp with
    | none => rw [hl] at h; exact absurd h (by simp)
    | some c =>
      rw [hl] at h
      match hr : claudeBlocks files rest with
      | none => rw [hr] at h; exact absurd h (by simp)
      | some bs' =>
        rw [hr] at h
        simp only [Option.map_some', Option.some.injEq] at h
        subst h
        simp [ih bs' hr]

theorem claudeBlocks_countP (files : List (String × String)) (p : String) :
    ∀ (pf : List String) (bs : List (String × String)),
      claudeBlocks files pf = some bs →
        bs.countP (fun b => b.1 == p) = pf.count p := by
  intro pf
  induction pf with
  | nil =>
    intro bs h
    simp [claudeBlocks] at h
    subst h
    rfl
  | cons fp rest ih =>
    intro bs h
    simp only [claudeBlocks] at h
    match hl : lookupJs files fp with
    | none => rw [hl] at h; exact absurd h (by simp)
    | some c =>
      rw [hl] at h
      match hr : claudeBlocks files rest with
      | none => rw [hr] at h; exact absurd h (by simp)
      | some bs' =>
        rw [hr] at h
        simp only [Option.map_some', Option.some.injEq] at h
        subst h
        simp [List.countP_cons, List.count_cons, ih bs' hr]

theorem claudeBlocks_isSome (files : List (String × String)) :
    ∀ (pf : List String), (∀ fp ∈ pf, (lookupJs files fp).isSome = true) →
      (claudeBlocks files pf).isSome = true := by
  intro pf
  induction pf with
  | nil => intro _; simp [claudeBlocks]
  | cons fp rest ih =>
    intro h
    simp only [claudeBlocks]
    match hl : lookupJs files fp with
    | none =>
      have := h fp (by simp)
      rw [hl] at this
      simp at this
    | some c =>
      have hr := ih (fun q hq => h q (by simp [hq]))
      match hb : claudeBlocks files rest with
      | none => rw [hb] at hr; simp at hr
      | some bs => simp

theorem geminiChunks_isSome (cwd : String) (files im : List (String × String)) :
    ∀ (pf : List String), (∀ fp ∈ pf, (lookupJs files fp).isSome = true) →
      (geminiChunks cwd files im pf).isSome = true := by
  intro pf
  induction pf with
  | nil => intro _; simp [geminiChunks]
  | cons fp rest ih =>
    intro h
    simp only [geminiChunks]
    match hl : lookupJs files fp with
    | none =>
      have := h fp (by simp)
      rw [hl] at this
      simp at this
    | some c =>
      have hr := ih (fun q hq => h q (by simp [hq]))
      match hb : geminiChunks cwd files im rest with
      | none => rw [hb] at hr; simp at hr
      | some l => simp

theorem foldl_preserveP {α β : Type} {P : β → Prop} (f : β → α → β)
    (hf : ∀ acc a, P acc → P (f acc a)) :
    ∀ (l : List α) (acc : β), P acc → P (l.foldl f acc) := by
  intro l
  induction l with
  | nil => intro acc h; exact h
  | cons a as ih => intro acc h; exact ih (f acc a) (hf acc a h)

theorem dfsEncounter_nodup (g : String → List String) :
    ∀ (n : Nat) (u : String) (vis : List String), vis.Nodup →
      (dfsEncounter g n vis u).Nodup := by
  intro n
  induction n with
  | zero => intro u vis h; exact h
  | succ n ih =>
    intro u vis h
    simp only [dfsEncounter]
    split
    · exact h
    · rename_i hu
      refine foldl_preserveP (dfsEncounter g n) (fun acc a ha => ih a acc ha) (g u) (vis ++ [u]) ?_
      simp [List.nodup_append, h, hu]

theorem analyzeLines_paths :
    ∀ (ls : List String) (i : Nat),
      (analyzeLines i ls).map (fun r => r.2.1) = recognizedPaths ls := by
  intro ls
  induction ls with
  | nil => intro i; rfl
  | cons l rest ih =>
    intro i
    simp only [analyzeLines, recognizedPaths, List.filterMap_cons]
    match h : firstAtMatch l with
    | some ip => simpa [h, recognizedPaths] using ih (i + 1)
    | none => simpa [h, recognizedPaths] using ih (i + 1)

theorem analyzeLines_length :
    ∀ (ls : List String) (i : Nat),
      (analyzeLines i ls).length = ls.countP (fun l => (firstAtMatch l).isSome) := by
  intro ls
  induction ls with
  | nil => intro i; rfl
  | cons l rest ih =>
    intro i
    simp only [analyzeLines, List.countP_cons]
    match h : firstAtMatch l with
    | some ip => simp [h, ih (i + 1)]
    | none => simp [h, ih (i + 1)]

/-- Invariance of the flat renderer's block list under changes to `files`
entries outside the processed list. -/
theorem claudeBlocks_congr (files1 files2 : List (String × String)) :
    ∀ (pf : List String), (∀ p ∈ pf, lookupJs files1 p = lookupJs files2 p) →
      claudeBlocks files1 pf = claudeBlocks files2 pf := by
  intro pf
  induction pf with
  | nil => intro _; rfl
  | cons fp rest ih =>
    intro h
    simp only [claudeBlocks]
    rw [h fp (by simp), ih (fun q hq => h q (by simp [hq]))]

/-- Invariance of the tree renderer's chunk list under changes to `files`
entries outside the processed list. -/
theorem geminiChunks_congr (cwd : String) (files1 files2 im : List (String × String)) :
    ∀ (pf : List String), (∀ p ∈ pf, lookupJs files1 p = lookupJs files2 p) →
      geminiChunks cwd files1 im pf = geminiChunks cwd files2 im pf := by
  intro pf
  induction pf with
  | nil => intro _; rfl
  | cons fp rest ih =>
    intro h
    simp only [geminiChunks]
    rw [h fp (by simp), ih (fun q hq => h q (by simp [hq]))]

/-- The tree renderer returns an output (rather than the modelled crash)
whenever every processed path is present in the files map. -/
theorem generateGeminiTreeOutput_isSome (cwd : String) (files : List (String × String))
    (pf : List String) (im : List (String × String))
    (hf : ∀ fp ∈ pf, (lookupJs files fp).isSome = true) :
    (generateGeminiTreeOutput cwd files pf im).isSome = true := by
  have h := geminiChunks_isSome cwd files im pf hf
  simp only [generateGeminiTreeOutput]
  match hc : geminiChunks cwd files im pf with
  | none => rw [hc] at h; simp at h
  | some l => simp

/-- The flat renderer returns an output whenever every processed path is
present in the files map. -/
theorem generateClaudeStyleOutput_isSome (files : List (String × String))
    (pf : List String) (hf : ∀ fp ∈ pf, (lookupJs files fp).isSome = true) :
    (generateClaudeStyleOutput files pf).isSome = true := by
  have h := claudeBlocks_isSome files pf hf
  simp only [generateClaudeStyleOutput]
  match hc : claudeBlocks files pf with
  | none => rw [hc] at h; simp at h
  | some bs => simp

/-- Joining a one-element array is the element itself. -/
theorem jsJoin_singleton (sep s : String) : jsJoin sep [s] = s := rfl

/-! The claim theorems. -/

/-- Claim C1 counterexample: at a concrete input whose imported document
`h.md` itself contains a directive to the resolvable document `t.md`, the
hierarchical renderer's output still contains the raw directive text
`@./t.md` and contains no import marker for `./t.md` — the inner directive
was not expanded, so substitution is not recursive; the surrounding literal
text `pre`/`post` of the directive's line is also discarded rather than kept
in place. -/
theorem claim_c1_counterexample :
    (generateGeminiTreeOutput "/r" c1Files ["main.md"] c1Im).map
        (fun out =>
          (containsSub "@./t.md" out, containsSub "<!-- Imported from: ./t.md -->" out,
            containsSub "pre" out)) =
      some (true, false, false) := by decide

/-- Claim C1 (amended): in hierarchical mode the renderer replaces each
directive's entire line with the import map's stored text for the resolved
path, trimmed and wrapped in import markers, substituted verbatim in a
single level — directives inside the substituted content are not themselves
expanded — and the whole output is the chunk list joined as is. -/
theorem claim_c1_single_level (cwd : String) (im : List (String × String)) (fp line ip c : String)
    (h1 : firstAtMatch line = some ip)
    (h2 : truthyLookup im (pathResolve cwd (jsDirname fp) ip) = some c) :
    geminiProcessLine cwd im fp line = [geminiImportBegin ip, jsTrim c, geminiImportEnd ip] ∧
      ∀ (files : List (String × String)) (pf chunks : List String),
        geminiChunks cwd files im pf = some chunks →
        generateGeminiTreeOutput cwd files pf im = some (jsJoin "\n\n" chunks) := by
  constructor
  · simp [geminiProcessLine, h1, h2]
  · intro files pf chunks h
    simp [generateGeminiTreeOutput, h]

/-- Claim C1 witness: the amended theorem evaluated on the concrete input of
the counterexample. -/
theorem claim_c1_witness :
    geminiProcessLine "/r" c1Im "main.md" "pre @./h.md post" =
      [geminiImportBegin "./h.md", jsTrim "A\n@./t.md\nB", geminiImportEnd "./h.md"] :=
  (claim_c1_single_level "/r" c1Im "main.md" "pre @./h.md post" "./h.md" "A\n@./t.md\nB"
    (by decide) (by decide)).1

/-- Claim C2: in flat mode, a document whose canonical path is referenced any
number of times in the inclusion graph gets exactly one boundary block: the
first-encounter traversal (modelled from the spec) lists each canonical path
at most once, and `generateClaudeStyleOutput` emits exactly one
marker-wrapped block per list entry. -/
theorem claim_c2_flat_dedup (g : String → List String) (n : Nat) (root : String)
    (files : List (String × String)) (p : String) (bs : List (String × String))
    (hp : p ∈ dfsEncounter g n [] root)
    (hb : claudeBlocks files (dfsEncounter g n [] root) = some bs) :
    bs.countP (fun b => b.1 == p) = 1 ∧
      generateClaudeStyleOutput files (dfsEncounter g n [] root) = some (renderClaudeBlocks bs) := by
  constructor
  · rw [claudeBlocks_countP files p _ bs hb]
    exact List.count_eq_one_of_mem (dfsEncounter_nodup g n root [] List.nodup_nil) hp
  · simp [generateClaudeStyleOutput, hb]

/-- Claim C2 witness: `shared/config.md` is referenced twice by the
duplicate-test root yet receives exactly one boundary block. -/
theorem claim_c2_witness :
    ([("duplicate-test.md", jsTrim dupMainContent),
        ("shared/config.md", jsTrim dupCfgContent)] : List (String × String)).countP
        (fun b => b.1 == "shared/config.md") = 1 ∧
      generateClaudeStyleOutput dupFiles (dfsEncounter dupGraph 3 [] "duplicate-test.md") =
        some (renderClaudeBlocks
          [("duplicate-test.md", jsTrim dupMainContent), ("shared/config.md", jsTrim dupCfgContent)]) :=
  claim_c2_flat_dedup dupGraph 3 "duplicate-test.md" dupFiles "shared/config.md"
    [("duplicate-test.md", jsTrim dupMainContent), ("shared/config.md", jsTrim dupCfgContent)]
    (by decide) (by decide)

set_option maxRecDepth 100000 in
/-- Claim C3 counterexample: rendering the mutually referencing fixtures
`circular-a.md`/`circular-b.md` in both modes yields outputs containing no
occurrence of `Cycle` at all — no `CycleDetected` diagnostic is produced for
either cyclic edge. -/
theorem claim_c3_counterexample :
    (generateGeminiTreeOutput "/t" circFiles ["circular-a.md", "circular-b.md"] circIm).map
        (containsSub "Cycle") = some false ∧
      (generateClaudeStyleOutput circFiles ["circular-a.md", "circular-b.md"]).map
        (containsSub "Cycle") = some false := by decide

/-- Claim C3 (amended): rendering documents that mutually reference each
other terminates in both modes — both renderers are single passes over the
processed-file list and never recurse into imported content — but no
`CycleDetected` diagnostic is emitted; each directive is substituted one
level deep or marked as a failed import. -/
theorem claim_c3_cycle_termination (cwd : String) (files : List (String × String))
    (pf : List String) (im : List (String × String))
    (hf : ∀ fp ∈ pf, (lookupJs files fp).isSome = true) :
    (generateGeminiTreeOutput cwd files pf im).isSome = true ∧
      (generateClaudeStyleOutput files pf).isSome = true :=
  ⟨generateGeminiTreeOutput_isSome cwd files pf im hf,
   generateClaudeStyleOutput_isSome files pf hf⟩

/-- Claim C3 witness: both renders of the circular fixture complete. -/
theorem claim_c3_witness :
    (generateGeminiTreeOutput "/t" circFiles ["circular-a.md", "circular-b.md"] circIm).isSome = true ∧
      (generateClaudeStyleOutput circFiles ["circular-a.md", "circular-b.md"]).isSome = true :=
  claim_c3_cycle_termination "/t" circFiles ["circular-a.md", "circular-b.md"] circIm (by decide)

/-- Claim C4 counterexample: an `@token` on a line inside a fenced code block
is recognized as a directive by the scanner of `analyzeClaudeFile` and
substituted (here: failed-import marked) by the tree renderer, and an
`@token` inside an inline code span is recognized as well (its closing
backtick even lands inside the captured path). -/
theorem claim_c4_counterexample :
    (analyzeClaudeFile "```\n@x.md\n```" "r" "f").atImports = [(2, "x.md", "@x.md")] ∧
      generateGeminiTreeOutput "/r" [("m.md", "```\n@x.md\n```")] ["m.md"] [] =
        some "```\n<!-- Import failed: x.md -->\n```" ∧
      recognizedPaths ["`@y.md`"] = ["y.md`"] := by decide

/-- Claim C4 (amended): directive recognition has no code-region awareness:
it is a per-line scan, fence delimiter lines are ordinary literal lines, and
wrapping any lines in a triple-backtick fence changes neither the set of
recognized directive paths nor how the tree renderer processes the enclosed
lines. -/
theorem claim_c4_fence_blind (ls : List String) :
    recognizedPaths ("```" :: ls ++ ["```"]) = recognizedPaths ls ∧
      (∀ (cwd : String) (im : List (String × String)) (fp : String),
        concatMap (geminiProcessLine cwd im fp) ("```" :: ls ++ ["```"]) =
          "```" :: concatMap (geminiProcessLine cwd im fp) ls ++ ["```"]) ∧
      (analyzeLines 0 ("```" :: ls ++ ["```"])).map (fun r => r.2.1) = recognizedPaths ls := by
  have hfence : firstAtMatch "```" = none := by decide
  have h1 : recognizedPaths ("```" :: ls ++ ["```"]) = recognizedPaths ls := by
    simp [recognizedPaths, List.filterMap_cons, List.filterMap_append, hfence]
  refine ⟨h1, ?_, ?_⟩
  · intro cwd im fp
    have hline : geminiProcessLine cwd im fp "```" = ["```"] := by
      simp [geminiProcessLine, hfence]
    show concatMap (geminiProcessLine cwd im fp) ("```" :: (ls ++ ["```"])) = _
    simp only [concatMap, concatMap_append, hline]
    simp [concatMap]
  · rw [analyzeLines_paths, h1]

/-- Claim C5: flat-mode boundary blocks follow the processed list in order
with the root first; the first-encounter traversal (modelled from the spec)
of the graph `main → header, footer; header → title` is exactly
`main, header, title, footer`, and the rendered blocks follow it. -/
theorem claim_c5_flat_order :
    (∀ (files : List (String × String)) (pf : List String) (bs : List (String × String)),
        claudeBlocks files pf = some bs → bs.map Prod.fst = pf) ∧
      dfsEncounter nestedGraph 10 [] "main.md" =
        ["main.md", "components/header.md", "shared/title.md", "components/footer.md"] ∧
      (claudeBlocks nestedFiles (dfsEncounter nestedGraph 10 [] "main.md")).map
          (List.map Prod.fst) =
        some ["main.md", "components/header.md", "shared/title.md", "components/footer.md"] := by
  refine ⟨fun files pf bs h => claudeBlocks_map_fst files pf bs h, by decide, by decide⟩

/-- Claim C5 witness: the order-preservation part evaluated on a concrete
one-document render. -/
theorem claim_c5_witness :
    ([("main.md", jsTrim "# Main\n\n@./components/header.md\n\n@./components/footer.md\n")] :
        List (String × String)).map Prod.fst = ["main.md"] :=
  claim_c5_flat_order.1 nestedFiles ["main.md"]
    [("main.md", jsTrim "# Main\n\n@./components/header.md\n\n@./components/footer.md\n")]
    (by decide)

/-- Claim C6: every directive whose import lookup fails (whatever the cause:
missing file, sandbox escape, scheme, binary — the code has a single failure
branch) is replaced by the inline `Import failed` marker, line processing is
compositional so traversal continues past the failure, and the run never
aborts when the processed files themselves are present. -/
theorem claim_c6_error_recovery (cwd : String) (files : List (String × String))
    (pf : List String) (im : List (String × String))
    (hf : ∀ fp ∈ pf, (lookupJs files fp).isSome = true) :
    (generateGeminiTreeOutput cwd files pf im).isSome = true ∧
      (∀ fp line ip, firstAtMatch line = some ip →
        truthyLookup im (pathResolve cwd (jsDirname fp) ip) = none →
        geminiProcessLine cwd im fp line = [geminiImportFail ip]) ∧
      (∀ (fp : String) (ls1 ls2 : List String),
        concatMap (geminiProcessLine cwd im fp) (ls1 ++ ls2) =
          concatMap (geminiProcessLine cwd im fp) ls1 ++
            concatMap (geminiProcessLine cwd im fp) ls2) := by
  refine ⟨generateGeminiTreeOutput_isSome cwd files pf im hf, ?_, ?_⟩
  · intro fp line ip h1 h2
    simp [geminiProcessLine, h1, h2]
  · intro fp ls1 ls2
    exact concatMap_append _ ls1 ls2

/-- Claim C6 witness: a failing import is marked inline and the run still
produces an output. -/
theorem claim_c6_witness :
    (generateGeminiTreeOutput "/r" [("m.md", "@./missing.md\nnext")] ["m.md"] []).isSome = true ∧
      geminiProcessLine "/r" [] "m.md" "@./missing.md" = [geminiImportFail "./missing.md"] :=
  ⟨(claim_c6_error_recovery "/r" [("m.md", "@./missing.md\nnext")] ["m.md"] [] (by decide)).1,
   (claim_c6_error_recovery "/r" [("m.md", "@./missing.md\nnext")] ["m.md"] []
      (by decide)).2.1 "m.md" "@./missing.md" "./missing.md" (by decide) (by decide)⟩

/-- Claim C7 counterexample: for the zero-directive document `a.md` with
source `"hi\n"`, the flat block's inner content is the trimmed `"hi"`, not
the byte-identical source, and the hierarchical render emits the bare text
with no marker-wrapped block at all. -/
theorem claim_c7_counterexample :
    claudeBlocks [("a.md", "hi\n")] ["a.md"] = some [("a.md", "hi")] ∧
      ("hi" : String) ≠ "hi\n" ∧
      generateGeminiTreeOutput "/r" [("a.md", "hi\n")] ["a.md"] [] = some "hi\n" ∧
      containsSub "<!--" "hi\n" = false := by decide

/-- Claim C7 (amended): a zero-directive document rendered alone yields, in
flat mode, exactly one marker-wrapped block whose inner content is the
source trimmed of leading and trailing whitespace, and, in hierarchical
mode, the source text unchanged with no markers. -/
theorem claim_c7_single_document (files : List (String × String)) (fp c cwd : String)
    (im : List (String × String)) (h : lookupJs files fp = some c) :
    generateClaudeStyleOutput files [fp] =
      some (jsJoin "\n\n" [claudeFileBegin fp, jsTrim c, claudeFileEnd fp]) ∧
      ((∀ l ∈ jsSplitLines c, firstAtMatch l = none) →
        generateGeminiTreeOutput cwd files [fp] im = some c) := by
  constructor
  · simp [generateClaudeStyleOutput, claudeBlocks, h, renderClaudeBlocks, concatMap]
  · intro hnd
    have hlines : concatMap (geminiProcessLine cwd im fp) (jsSplitLines c) = jsSplitLines c := by
      apply concatMap_id_of
      intro l hl
      simp [geminiProcessLine, hnd l hl]
    have hchunk : geminiProcessFile cwd im fp c = c := by
      rw [geminiProcessFile, hlines, jsJoin_jsSplitLines]
    simp [generateGeminiTreeOutput, geminiChunks, h, hchunk, jsJoin_singleton]

/-- Claim C7 witness: the amended theorem evaluated on a concrete
zero-directive document. -/
theorem claim_c7_witness :
    generateClaudeStyleOutput [("a.md", "hi")] ["a.md"] =
      some (jsJoin "\n\n" [claudeFileBegin "a.md", jsTrim "hi", claudeFileEnd "a.md"]) ∧
      generateGeminiTreeOutput "/r" [("a.md", "hi")] ["a.md"] [] = some "hi" :=
  ⟨(claim_c7_single_document [("a.md", "hi")] "a.md" "hi" "/r" [] (by decide)).1,
   (claim_c7_single_document [("a.md", "hi")] "a.md" "hi" "/r" [] (by decide)).2 (by decide)⟩

/-- Claim C8: every substituted block in hierarchical mode is wrapped in
exactly the markers `<!-- Imported from: {rawPath} -->` and
`<!-- End of import from: {rawPath} -->`, where `{rawPath}` is the
directive's raw as-written path (the regex capture), not the resolved
canonical form. -/
theorem claim_c8_markers (cwd : String) (im : List (String × String)) (fp line ip c : String)
    (h1 : firstAtMatch line = some ip)
    (h2 : truthyLookup im (pathResolve cwd (jsDirname fp) ip) = some c) :
    geminiProcessLine cwd im fp line =
      ["<!-- Imported from: " ++ ip ++ " -->", jsTrim c,
        "<!-- End of import from: " ++ ip ++ " -->"] := by
  simp [geminiProcessLine, h1, h2, geminiImportBegin, geminiImportEnd]

/-- Claim C8 witness: the markers carry the raw path `./h.md` even though the
canonical resolved path is `/a/h.md`. -/
theorem claim_c8_witness :
    geminiProcessLine "/a" [("/a/h.md", "H")] "main.md" "@./h.md" =
      ["<!-- Imported from: ./h.md -->", "H", "<!-- End of import from: ./h.md -->"] := by
  rw [claim_c8_markers "/a" [("/a/h.md", "H")] "main.md" "@./h.md" "./h.md" "H"
    (by decide) (by decide)]
  decide

/-- Claim C9 counterexample: on the line `@a.md @b.md` the scanner records a
single directive (`a.md`, the leftmost), not both, and the tree renderer
replaces the whole line using only the first match, discarding `@b.md`. -/
theorem claim_c9_counterexample :
    (analyzeClaudeFile "@a.md @b.md" "r" "f").atImports = [(1, "a.md", "@a.md @b.md")] ∧
      (analyzeClaudeFile "@a.md @b.md" "r" "f").importCount = 1 ∧
      recognizedPaths ["@a.md @b.md"] ≠ ["a.md", "b.md"] ∧
      geminiProcessLine "/r" [] "m.md" "@a.md @b.md" = [geminiImportFail "a.md"] := by decide

/-- Claim C9 (amended): directive scanning recognizes at most one directive
per line — the leftmost `@` followed by a non-whitespace run — so a
document's import count equals its number of matching lines and the
recognized paths are one capture per matching line. -/
theorem claim_c9_first_match_only (content : String) :
    (analyzeClaudeFile content "" "").importCount =
        (jsSplitLines content).countP (fun l => (firstAtMatch l).isSome) ∧
      (analyzeClaudeFile content "" "").atImports.map (fun r => r.2.1) =
        recognizedPaths (jsSplitLines content) := by
  constructor
  · simpa [analyzeClaudeFile] using analyzeLines_length (jsSplitLines content) 0
  · simpa [analyzeClaudeFile] using analyzeLines_paths (jsSplitLines content) 0

/-- Claim C10 counterexample: with the files map, processed list and import
map all fixed, the tree renderer's output differs between working
directories `/a` and `/b`, because `path.resolve` consults the ambient
`process.cwd()`. -/
theorem claim_c10_counterexample :
    generateGeminiTreeOutput "/a" [("main.md", "@./h.md")] ["main.md"] [("/a/h.md", "H")] ≠
      generateGeminiTreeOutput "/b" [("main.md", "@./h.md")] ["main.md"] [("/a/h.md", "H")] := by
  decide

/-- Claim C10 (amended): `generateClaudeStyleOutput` is a pure function of
the processed list and the files entries it names, and
`generateGeminiTreeOutput` is a pure function of those plus the ambient
working directory — outputs are unchanged under any modification of the
files map outside the processed paths. -/
theorem claim_c10_determinism :
    (∀ (files1 files2 : List (String × String)) (pf : List String),
        (∀ p ∈ pf, lookupJs files1 p = lookupJs files2 p) →
        generateClaudeStyleOutput files1 pf = generateClaudeStyleOutput files2 pf) ∧
      (∀ (cwd : String) (files1 files2 : List (String × String)) (pf : List String)
          (im : List (String × String)),
        (∀ p ∈ pf, lookupJs files1 p = lookupJs files2 p) →
        generateGeminiTreeOutput cwd files1 pf im = generateGeminiTreeOutput cwd files2 pf im) := by
  constructor
  · intro files1 files2 pf h
    simp [generateClaudeStyleOutput, claudeBlocks_congr files1 files2 pf h]
  · intro cwd files1 files2 pf im h
    simp [generateGeminiTreeOutput, geminiChunks_congr cwd files1 files2 im pf h]

/-- Claim C10 witness: an entry outside the processed list does not change
the flat output. -/
theorem claim_c10_witness :
    generateClaudeStyleOutput [("a.md", "x"), ("junk.md", "j")] ["a.md"] =
      generateClaudeStyleOutput [("a.md", "x")] ["a.md"] :=
  claim_c10_determinism.1 [("a.md", "x"), ("junk.md", "j")] [("a.md", "x")] ["a.md"] (by decide)
